import Mathlib

/-!
Shallow embedding of the OpenFX repository (src/Website.py and
src/fx_volatility_alert_engine.py) and proofs about its claims.

Prices, percentage changes and thresholds are modelled as rationals; a
pandas dataframe is modelled as its list of rows, each row holding the
time-index entry and the Close value.  Fallible Python operations are
modelled with Option/Except.
-/

namespace OpenFX

/-- A dataframe row: (time-index entry, Close price). -/
abbrev DataFrame := List (Int × ℚ)

/-- The Close column of a dataframe, in row order. -/
def DataFrame.closeCol (df : DataFrame) : List ℚ := df.map Prod.snd

/-- The time index of a dataframe, in row order. -/
def DataFrame.timeIndex (df : DataFrame) : List Int := df.map Prod.fst

/-- Pandas positional indexing `xs.iloc[i]`: a negative index counts from
the end (`-1` is the last row); out-of-range access raises, modelled as
`none`. -/
def iloc {α : Type} (xs : List α) (i : Int) : Option α :=
  let j : Int := if i < 0 then (xs.length : Int) + i else i
  if 0 ≤ j ∧ j < (xs.length : Int) then xs[j.toNat]? else none

/-- `calculate_percent_change(df, lookback)` from both source files:
returns `0.0` when the dataframe has fewer rows than the lookback,
otherwise `((close.iloc[-1] - close.iloc[-lookback]) / close.iloc[-lookback]) * 100`.
`none` models an uncaught indexing exception. -/
def calculate_percent_change (df : DataFrame) (lookback : Nat) : Option ℚ :=
  if df.length < lookback then some 0
  else
    match iloc df.closeCol (-1), iloc df.closeCol (-(lookback : Int)) with
    | some current_price, some old_price =>
        some ((current_price - old_price) / old_price * 100)
    | _, _ => none

/-- Modelled from the words of the claim: the percentage change written
with last-element and from-the-end indexing, `(last - last[-n]) / last[-n] * 100`,
where `last[-n]` is the element `n - 1` places from the end. -/
def spec_percent_change (df : DataFrame) (n : Nat) : Option ℚ :=
  match df.closeCol.getLast?, df.closeCol.reverse[n - 1]? with
  | some lastClose, some oldClose => some ((lastClose - oldClose) / oldClose * 100)
  | _, _ => none

/-- `classify_alert(pct)` from src/Website.py. -/
def classify_alert (pct : ℚ) : Option String :=
  if |pct| < 1/10 then none
  else if |pct| < 1/2 then some "minor"
  else some "major"

/-- `should_alert(pct_change, threshold)` from
src/fx_volatility_alert_engine.py. -/
def should_alert (pct_change : ℚ) (threshold : ℚ) : Bool :=
  decide (threshold ≤ |pct_change|)

/-- A Python value as it appears at the `alert_messages.append(...)` call
site of src/Website.py: a string or a number. -/
inductive PyVal where
  | str : String → PyVal
  | num : ℚ → PyVal
deriving DecidableEq

/-- A call `xs.append(args...)` with `args` the list of positional
arguments: Python `list.append` takes exactly one argument and raises
`TypeError` otherwise. -/
def list_append_call (xs : List PyVal) (args : List PyVal) : Except String (List PyVal) :=
  if args.length = 1 then Except.ok (xs ++ args)
  else Except.error ("TypeError: append() takes exactly one argument (" ++
        toString args.length ++ " given)")

/-- One iteration of the per-pair alert-collection loop of src/Website.py
(lines 81-103) restricted to its effect on `alert_messages`: skip on empty
data, classify the percentage change, and on an alert run
`alert_messages.append(pair, pct, price, alert_type)` - four positional
arguments, as written in the source. -/
def website_pair_step (alert_messages : List PyVal) (pair : String)
    (df : DataFrame) (lookback : Nat) : Except String (List PyVal) :=
  if df.isEmpty then Except.ok alert_messages
  else
    match calculate_percent_change df lookback, iloc df.closeCol (-1) with
    | some pct, some price =>
        match classify_alert pct with
        | none => Except.ok alert_messages
        | some alert_type =>
            list_append_call alert_messages
              [PyVal.str pair, PyVal.num pct, PyVal.num price, PyVal.str alert_type]
    | _, _ => Except.error "IndexError"

/-- The metadata attached to a spike marker
(`spike_line.spike_data` in src/fx_volatility_alert_engine.py). -/
structure SpikeData where
  timestamp : Int
  price : ℚ
  pct_change : ℚ
  is_major : Bool
deriving DecidableEq, Inhabited

/-- A spike-marker line artist: its drawn coordinates, colour, and the
attached `spike_data`. -/
structure SpikeLine where
  xdata : List Int
  ydata : List ℚ
  color : String
  spike_data : SpikeData
deriving DecidableEq, Inhabited

/-- The `plot_obj` dictionary built by `init_dashboard` together with the
state of its axes: the main price line data, the axis limits, the line
artists currently attached to the axes, the `spike_lines` ring, and
whether a hover cursor has been created. -/
structure PlotObj where
  line_x : List Int
  line_y : List ℚ
  xlim : Int × Int
  ylim : ℚ × ℚ
  ax_spikes : List SpikeLine
  spike_lines : List SpikeLine
  cursor : Bool
deriving DecidableEq

/-- `ax.relim(); ax.autoscale_view()` on the x axis: the data envelope of
the new x data, keeping the old limits when there is no data. -/
def relimX (xs : List Int) (old : Int × Int) : Int × Int :=
  match xs with
  | [] => old
  | x :: t => (t.foldl min x, t.foldl max x)

/-- `ax.relim(); ax.autoscale_view()` on the y axis. -/
def relimY (ys : List ℚ) (old : ℚ × ℚ) : ℚ × ℚ :=
  match ys with
  | [] => old
  | y :: t => (t.foldl min y, t.foldl max y)

/-- `update_plot(plot_obj, df)` from src/fx_volatility_alert_engine.py:
returns immediately on an empty dataframe, otherwise sets the line data
to the dataframe and rescales the axis limits. -/
def update_plot (plot_obj : PlotObj) (df : DataFrame) : PlotObj :=
  if df.isEmpty then plot_obj
  else
    { plot_obj with
      line_x := df.timeIndex
      line_y := df.closeCol
      xlim := relimX df.timeIndex plot_obj.xlim
      ylim := relimY df.closeCol plot_obj.ylim }

/-- The spike-line artist created inside `draw_spike_line`: a vertical
segment of height 15 percent of the y range centred at the price, red for
a major spike and blue otherwise, with the alert values attached as
`spike_data`. -/
def mk_spike (plot_obj : PlotObj) (timestamp : Int) (price pct_change : ℚ)
    (is_major : Bool) : SpikeLine :=
  let color := if is_major then "red" else "blue"
  let height := (plot_obj.ylim.2 - plot_obj.ylim.1) * (15/100)
  { xdata := [timestamp, timestamp]
    ydata := [price - height/2, price + height/2]
    color := color
    spike_data :=
      { timestamp := timestamp, price := price
        pct_change := pct_change, is_major := is_major } }

/-- The `Keep only last 8 spikes` step of `draw_spike_line`: when more
than 8 markers are held, pop the oldest from `spike_lines` and remove it
from the axes. -/
def ring_trim (p1 : PlotObj) : PlotObj :=
  if 8 < p1.spike_lines.length then
    match p1.spike_lines with
    | [] => p1
    | old_line :: rest =>
        { p1 with spike_lines := rest, ax_spikes := p1.ax_spikes.erase old_line }
  else p1

/-- `if plot_obj["cursor"] is None: ... plot_obj["cursor"] = cursor` at the
end of `draw_spike_line`. -/
def ensure_cursor (p : PlotObj) : PlotObj :=
  if p.cursor then p else { p with cursor := true }

/-- `draw_spike_line(plot_obj, timestamp, price, pct_change, is_major)`
from src/fx_volatility_alert_engine.py: draw the marker on the axes,
append it to `spike_lines`, trim the ring to 8 markers, and create the
hover cursor if none exists yet. -/
def draw_spike_line (plot_obj : PlotObj) (timestamp : Int)
    (price pct_change : ℚ) (is_major : Bool) : PlotObj :=
  let spike := mk_spike plot_obj timestamp price pct_change is_major
  ensure_cursor (ring_trim
    { plot_obj with
      ax_spikes := plot_obj.ax_spikes ++ [spike]
      spike_lines := plot_obj.spike_lines ++ [spike] })

/-- The hover-tooltip text built by the `on_add` handler inside
`draw_spike_line`, for an artist carrying `spike_data`; the three
formatting parameters stand for `strftime` on the timestamp and the
`:.5f` and `:+.2f` float formats of the source. -/
def on_add_text (strftime : Int → String) (fmt_price : ℚ → String)
    (fmt_pct : ℚ → String) (artist : SpikeLine) : String :=
  let data := artist.spike_data
  let spike_type := if data.is_major then "MAJOR SPIKE" else "MINOR ALERT"
  spike_type ++ "\n" ++
    "Time: " ++ strftime data.timestamp ++ "\n" ++
    "Price: " ++ fmt_price data.price ++ "\n" ++
    "Move: " ++ fmt_pct data.pct_change ++ "%"

/-- One line of terminal output of the engine loop, per pair. -/
inductive EngineMsg where
  | no_data : String → EngineMsg
  | alert : String → ℚ → ℚ → EngineMsg
  | ok : String → ℚ → ℚ → EngineMsg
deriving DecidableEq

/-- The per-pair body of the monitoring loop of
src/fx_volatility_alert_engine.py (lines 271-301): skip on empty data,
update the plot, compute the percentage change (default lookback 5),
and either print an alert and draw a spike line or print the OK line.
Returns the new plot state, the printed messages, and the number of
alerts counted. -/
def engine_pair_step (plot_obj : PlotObj) (pair : String) (data : DataFrame)
    (alert_threshold spike_threshold : ℚ) : PlotObj × List EngineMsg × Nat :=
  if data.isEmpty then (plot_obj, [EngineMsg.no_data pair], 0)
  else
    let plot1 := update_plot plot_obj data
    match calculate_percent_change data 5,
          iloc data.closeCol (-1), iloc data.timeIndex (-1) with
    | some pct_change, some price, some timestamp =>
        if should_alert pct_change alert_threshold then
          let is_major := decide (spike_threshold ≤ |pct_change|)
          (draw_spike_line plot1 timestamp price pct_change is_major,
           [EngineMsg.alert pair pct_change price], 1)
        else (plot1, [EngineMsg.ok pair pct_change price], 0)
    | _, _, _ => (plot1, [], 0)

/-- One response of the market-data feed as seen by `get_live_fx`: either
the rows that `ticker.history` returned, or an exception raised during
the fetch. -/
inductive FetchResult where
  | rows : DataFrame → FetchResult
  | exn : String → FetchResult
deriving DecidableEq

/-- `get_live_fx(pair)` from both source files, over a stream of pending
feed responses: it performs exactly one fetch attempt, returning the rows
(an empty dataframe when the fetch raised or returned no rows) together
with the rest of the stream. -/
def get_live_fx : List FetchResult → DataFrame × List FetchResult
  | [] => ([], [])
  | FetchResult.exn _ :: rest => ([], rest)
  | FetchResult.rows df :: rest => ((if df.isEmpty then [] else df), rest)

/-- The keyboard-navigation state of `init_dashboard`: the
`current_index` dictionary and the visibility flag of each axes, by pair
position. -/
structure NavState where
  current_index : Nat
  visible : List Bool
deriving DecidableEq

/-- The navigation state after `init_dashboard(pairs)` with `n` pairs:
every axes created hidden, then the first pair shown. -/
def init_dashboard (n : Nat) : NavState :=
  { current_index := 0, visible := (List.replicate n false).set 0 true }

/-- The `on_key` handler of `init_dashboard`: ignore keys other than
left/right, hide the current axes, move the index by one modulo the
number of pairs (Python modulo, hence the `Int.emod` on the left step),
and show the new axes. -/
def on_key (n : Nat) (s : NavState) (key : String) : NavState :=
  if ¬(key = "left" ∨ key = "right") then s
  else
    let vis1 := s.visible.set s.current_index false
    let idx :=
      if key = "right" then (s.current_index + 1) % n
      else (((s.current_index : Int) - 1) % (n : Int)).toNat
    { current_index := idx, visible := vis1.set idx true }

/-- The navigation invariant: the index is in range and exactly the axes
at the current index is visible. -/
def NavInv (n : Nat) (s : NavState) : Prop :=
  s.current_index < n ∧
    s.visible = (List.replicate n false).set s.current_index true

/-- Whether a feed response was an exception. -/
def FetchResult.raised : FetchResult → Bool
  | FetchResult.exn _ => true
  | FetchResult.rows _ => false

/-- One observable step of the `while True` loop of src/Website.py. -/
inductive Ev where
  | fetch : String → Ev
  | no_data : String → Ev
  | compute : String → Ev
  | classify : String → Ev
  | render_metric : String → Ev
  | render_alerts : Ev
  | render_chart : String → Ev
  | sleep : Ev
  | crash : Ev
deriving DecidableEq

/-- The `Price Charts` section of src/Website.py (lines 135-141): for
every pair, fetch again and draw its chart when the data is non-empty.
In the source this section sits inside the per-pair loop body. -/
def charts_section (pairs : List String) (feed : String → DataFrame) : List Ev :=
  pairs.flatMap fun q =>
    Ev.fetch q :: (if (feed q).isEmpty then [] else [Ev.render_chart q])

/-- The event trace of the per-pair `for` loop of one cycle of
src/Website.py (lines 81-143), faithful to the indentation of the
source: for each pair with data, the metric is rendered, an alert append
crashes the script (see `list_append_call`), and otherwise the Alerts
section, the Charts section, and `time.sleep` all run inside this
iteration before the next pair is handled. -/
def website_iter (pairs : List String) (feed : String → DataFrame)
    (lookback : Nat) : List String → List Ev
  | [] => []
  | p :: rest =>
      let df := feed p
      if df.isEmpty then
        Ev.fetch p :: Ev.no_data p :: website_iter pairs feed lookback rest
      else
        match calculate_percent_change df lookback with
        | none => [Ev.fetch p, Ev.crash]
        | some pct =>
            Ev.fetch p :: Ev.compute p :: Ev.classify p :: Ev.render_metric p ::
              (match classify_alert pct with
               | some _ => [Ev.crash]
               | none =>
                   Ev.render_alerts ::
                     (charts_section pairs feed ++
                       Ev.sleep :: website_iter pairs feed lookback rest))

/-- One cycle of the `while True` loop of src/Website.py over the
selected pairs. -/
def website_cycle (pairs : List String) (feed : String → DataFrame)
    (lookback : Nat) : List Ev :=
  website_iter pairs feed lookback pairs

/-- A feed answering every pair with five rows of constant Close 1. -/
def const_feed : String → DataFrame :=
  fun _ => [(0, 1), (1, 1), (2, 1), (3, 1), (4, 1)]

/-- Eight pairwise distinct spike markers, used as concrete witnesses. -/
def demo_spikes : List SpikeLine :=
  (List.range 8).map fun k =>
    { xdata := [(k : Int), (k : Int)]
      ydata := [0, 0]
      color := "blue"
      spike_data :=
        { timestamp := (k : Int), price := 1, pct_change := 0, is_major := false } }

/-- A concrete plot state holding the eight demo markers. -/
def demo_plot : PlotObj :=
  { line_x := [], line_y := [], xlim := (0, 0), ylim := (0, 1)
    ax_spikes := demo_spikes, spike_lines := demo_spikes, cursor := false }

/-! ## Helper lemmas -/

lemma ensure_cursor_spike_lines (p : PlotObj) :
    (ensure_cursor p).spike_lines = p.spike_lines := by
  unfold ensure_cursor; split <;> rfl

lemma ensure_cursor_ax_spikes (p : PlotObj) :
    (ensure_cursor p).ax_spikes = p.ax_spikes := by
  unfold ensure_cursor; split <;> rfl

lemma update_plot_spike_lines (p : PlotObj) (df : DataFrame) :
    (update_plot p df).spike_lines = p.spike_lines := by
  unfold update_plot; split <;> rfl

/-! ## Claims -/

/-- C2: `classify_alert` returns `none` exactly below 0.1 absolute
percentage change, `"minor"` exactly on [0.1, 0.5), `"major"` exactly
from 0.5 on, and `should_alert pct t` holds exactly when the absolute
change reaches the threshold. -/
theorem claim_C2_fixed_thresholds (pct t : ℚ) :
    (classify_alert pct = none ↔ |pct| < 1/10) ∧
    (classify_alert pct = some "minor" ↔ 1/10 ≤ |pct| ∧ |pct| < 1/2) ∧
    (classify_alert pct = some "major" ↔ 1/2 ≤ |pct|) ∧
    (should_alert pct t = true ↔ t ≤ |pct|) := by
  unfold classify_alert should_alert
  refine ⟨?_, ?_, ?_, by simp⟩ <;> (split_ifs with h1 h2 <;> simp_all <;> try linarith)

/-- C10: `update_plot` on an empty dataframe returns the plot object
unchanged in every field. -/
theorem claim_C10_update_plot_empty_frame (plot_obj : PlotObj) :
    update_plot plot_obj [] = plot_obj := rfl

/-- C3: at a concrete dataframe whose change classifies as an alert, the
per-pair loop body of src/Website.py does not record the alert tuple: the
call `alert_messages.append(pair, pct, price, alert_type)` passes four
positional arguments and raises `TypeError`, so no alert message is ever
displayed. -/
theorem claim_C3_append_raises_type_error :
    website_pair_step [] "EURUSD=X"
        [(0, 1), (1, 1), (2, 1), (3, 1), (4, 1), (5, 2)] 5 =
      Except.error "TypeError: append() takes exactly one argument (4 given)" := by
  norm_num [website_pair_step, calculate_percent_change, iloc, DataFrame.closeCol,
    classify_alert, list_append_call, show Int.toNat 5 = 5 from rfl,
    show Int.toNat 1 = 1 from rfl,
    show |(100 : ℚ)| = 100 from abs_of_nonneg (by norm_num)]
  rfl

/-- C5: at a concrete two-pair selection whose data triggers no alert,
one cycle of the src/Website.py loop sleeps twice, not once: the Alerts
and Charts sections and `time.sleep` are indented inside the per-pair
loop, so every pair with data re-renders both sections and sleeps before
the next pair is processed. -/
theorem claim_C5_website_sleeps_per_pair :
    website_cycle ["EURUSD=X", "USDJPY=X"] const_feed 5 =
      [Ev.fetch "EURUSD=X", Ev.compute "EURUSD=X", Ev.classify "EURUSD=X",
       Ev.render_metric "EURUSD=X", Ev.render_alerts,
       Ev.fetch "EURUSD=X", Ev.render_chart "EURUSD=X",
       Ev.fetch "USDJPY=X", Ev.render_chart "USDJPY=X", Ev.sleep,
       Ev.fetch "USDJPY=X", Ev.compute "USDJPY=X", Ev.classify "USDJPY=X",
       Ev.render_metric "USDJPY=X", Ev.render_alerts,
       Ev.fetch "EURUSD=X", Ev.render_chart "EURUSD=X",
       Ev.fetch "USDJPY=X", Ev.render_chart "USDJPY=X", Ev.sleep] ∧
    (website_cycle ["EURUSD=X", "USDJPY=X"] const_feed 5).count Ev.sleep = 2 := by
  have h : website_cycle ["EURUSD=X", "USDJPY=X"] const_feed 5 =
      [Ev.fetch "EURUSD=X", Ev.compute "EURUSD=X", Ev.classify "EURUSD=X",
       Ev.render_metric "EURUSD=X", Ev.render_alerts,
       Ev.fetch "EURUSD=X", Ev.render_chart "EURUSD=X",
       Ev.fetch "USDJPY=X", Ev.render_chart "USDJPY=X", Ev.sleep,
       Ev.fetch "USDJPY=X", Ev.compute "USDJPY=X", Ev.classify "USDJPY=X",
       Ev.render_metric "USDJPY=X", Ev.render_alerts,
       Ev.fetch "EURUSD=X", Ev.render_chart "EURUSD=X",
       Ev.fetch "USDJPY=X", Ev.render_chart "USDJPY=X", Ev.sleep] := by
    norm_num [website_cycle, website_iter, charts_section, const_feed,
      calculate_percent_change, iloc, DataFrame.closeCol, classify_alert,
      show Int.toNat 4 = 4 from rfl, show Int.toNat 0 = 0 from rfl]
  refine ⟨h, ?_⟩
  rw [h]
  decide

lemma iloc_neg {α : Type} (xs : List α) (k : Nat) (hk : 1 ≤ k)
    (hlen : k ≤ xs.length) : iloc xs (-(k : Int)) = xs[xs.length - k]? := by
  unfold iloc
  have hneg : (-(k : Int)) < 0 := by omega
  rw [if_pos hneg]
  have hcond : (0 : Int) ≤ (xs.length : Int) + -(k : Int) ∧
      (xs.length : Int) + -(k : Int) < (xs.length : Int) := by omega
  rw [if_pos hcond]
  congr 1
  omega

/-- C1: when the dataframe has at least `lookback` rows (and the lookback
is at least one, as the sources and the sidebar slider enforce),
`calculate_percent_change` returns exactly the claimed formula
`(last - last[-n]) / last[-n] * 100`. -/
theorem claim_C1_percent_change_formula (df : DataFrame) (n : Nat)
    (h1 : 1 ≤ n) (h2 : n ≤ df.length) :
    calculate_percent_change df n = spec_percent_change df n := by
  have hL : df.closeCol.length = df.length := by
    simp [DataFrame.closeCol]
  have e1 : iloc df.closeCol (-1) = df.closeCol[df.closeCol.length - 1]? := by
    have h := iloc_neg df.closeCol 1 (Nat.le_refl 1) (by omega)
    simpa using h
  have en : iloc df.closeCol (-(n : Int)) = df.closeCol[df.closeCol.length - n]? :=
    iloc_neg df.closeCol n h1 (by omega)
  have elast : df.closeCol.getLast? = df.closeCol[df.closeCol.length - 1]? :=
    List.getLast?_eq_getElem? df.closeCol
  have erev : df.closeCol.reverse[n - 1]? = df.closeCol[df.closeCol.length - n]? := by
    rw [List.getElem?_reverse (by omega)]
    congr 1
    omega
  unfold calculate_percent_change spec_percent_change
  rw [if_neg (by omega), e1, en, elast, erev]

/-- Witness for C1 at a concrete dataframe of six rows and lookback 5. -/
theorem claim_C1_percent_change_formula_witness :
    (1 ≤ 5 ∧ 5 ≤ ([(0, 1), (1, 1), (2, 1), (3, 1), (4, 1), (5, 2)] : DataFrame).length) ∧
    calculate_percent_change [(0, 1), (1, 1), (2, 1), (3, 1), (4, 1), (5, 2)] 5 =
      spec_percent_change [(0, 1), (1, 1), (2, 1), (3, 1), (4, 1), (5, 2)] 5 :=
  ⟨⟨by norm_num, by norm_num⟩,
   claim_C1_percent_change_formula [(0, 1), (1, 1), (2, 1), (3, 1), (4, 1), (5, 2)] 5
     (by norm_num) (by norm_num)⟩

lemma ring_trim_keep (p : PlotObj) (h : p.spike_lines.length ≤ 8) :
    ring_trim p = p := by
  unfold ring_trim
  rw [if_neg (by omega)]

lemma ring_trim_pop (p : PlotObj) (a : SpikeLine) (l : List SpikeLine)
    (hsl : p.spike_lines = a :: l) (h : 8 < p.spike_lines.length) :
    ring_trim p = { p with spike_lines := l, ax_spikes := p.ax_spikes.erase a } := by
  unfold ring_trim
  rw [if_pos h, hsl]

lemma draw_spike_line_eq (plot_obj : PlotObj) (ts : Int) (price pct : ℚ)
    (maj : Bool) :
    draw_spike_line plot_obj ts price pct maj =
      ensure_cursor (ring_trim
        { plot_obj with
          ax_spikes := plot_obj.ax_spikes ++ [mk_spike plot_obj ts price pct maj]
          spike_lines := plot_obj.spike_lines ++ [mk_spike plot_obj ts price pct maj] }) :=
  rfl

/-- C4: the spike list is a bounded ring: starting from at most 8 held
markers, a call to `draw_spike_line` keeps at most 8; below the bound the
new marker is appended, and at the bound the oldest (head) marker is
dropped from the list, the rest keeping insertion order, and the oldest
marker is no longer among the line artists of the axes. -/
theorem claim_C4_spike_ring_bounded (plot_obj : PlotObj) (ts : Int)
    (price pct : ℚ) (maj : Bool) (h8 : plot_obj.spike_lines.length ≤ 8) :
    (draw_spike_line plot_obj ts price pct maj).spike_lines.length ≤ 8 ∧
    (plot_obj.spike_lines.length < 8 →
      (draw_spike_line plot_obj ts price pct maj).spike_lines
        = plot_obj.spike_lines ++ [mk_spike plot_obj ts price pct maj]) ∧
    (plot_obj.spike_lines.length = 8 →
      (draw_spike_line plot_obj ts price pct maj).spike_lines
        = plot_obj.spike_lines.tail ++ [mk_spike plot_obj ts price pct maj]) ∧
    (plot_obj.spike_lines.length = 8 →
      plot_obj.ax_spikes.Nodup →
      mk_spike plot_obj ts price pct maj ∉ plot_obj.ax_spikes →
      plot_obj.spike_lines.headI ∉ (draw_spike_line plot_obj ts price pct maj).ax_spikes) := by
  rw [draw_spike_line_eq]
  rw [ensure_cursor_spike_lines, ensure_cursor_ax_spikes]
  rcases Nat.lt_or_ge plot_obj.spike_lines.length 8 with hlt | hge
  · rw [ring_trim_keep _ (by simp; omega)]
    exact ⟨by simp; omega, fun _ => rfl, fun h => absurd h (by omega),
      fun h _ _ => absurd h (by omega)⟩
  · have hlen : plot_obj.spike_lines.length = 8 := Nat.le_antisymm h8 hge
    cases hsl : plot_obj.spike_lines with
    | nil => rw [hsl] at hlen; simp at hlen
    | cons a l =>
      have hlenl : l.length = 7 := by
        rw [hsl] at hlen
        simpa using hlen
      rw [ring_trim_pop _ a (l ++ [mk_spike plot_obj ts price pct maj]) rfl
        (by show 8 < (a :: (l ++ [mk_spike plot_obj ts price pct maj])).length
            simp only [List.length_cons, List.length_append, List.length_singleton, hlenl]
            omega)]
      refine ⟨by simp [hlenl], fun h => by simp [hlenl] at h, fun _ => rfl,
        fun _ hnd hnm => ?_⟩
      show a ∉ (plot_obj.ax_spikes ++ [mk_spike plot_obj ts price pct maj]).erase a
      have hnd2 : (plot_obj.ax_spikes ++ [mk_spike plot_obj ts price pct maj]).Nodup := by
        rw [List.nodup_append]
        exact ⟨hnd, List.nodup_singleton _, by simpa [List.disjoint_singleton] using hnm⟩
      rw [List.Nodup.mem_erase_iff hnd2]
      simp

/-- Witness for C4 at a plot already holding the eight demo markers. -/
theorem claim_C4_spike_ring_bounded_witness :
    demo_plot.spike_lines.length ≤ 8 ∧
    ((draw_spike_line demo_plot 99 2 1 true).spike_lines.length ≤ 8 ∧
     (demo_plot.spike_lines.length < 8 →
       (draw_spike_line demo_plot 99 2 1 true).spike_lines
         = demo_plot.spike_lines ++ [mk_spike demo_plot 99 2 1 true]) ∧
     (demo_plot.spike_lines.length = 8 →
       (draw_spike_line demo_plot 99 2 1 true).spike_lines
         = demo_plot.spike_lines.tail ++ [mk_spike demo_plot 99 2 1 true]) ∧
     (demo_plot.spike_lines.length = 8 →
       demo_plot.ax_spikes.Nodup →
       mk_spike demo_plot 99 2 1 true ∉ demo_plot.ax_spikes →
       demo_plot.spike_lines.headI ∉ (draw_spike_line demo_plot 99 2 1 true).ax_spikes)) :=
  ⟨by decide, claim_C4_spike_ring_bounded demo_plot 99 2 1 true (by decide)⟩

/-- C7: the spike marker created by `draw_spike_line` carries exactly the
alert values as metadata, is red precisely when the spike is major and
blue otherwise, ends up as the newest element of the ring, and the hover
tooltip for it is built from exactly its own metadata fields. -/
theorem claim_C7_spike_metadata_and_tooltip (plot_obj : PlotObj) (ts : Int)
    (price pct : ℚ) (maj : Bool) (strftime : Int → String)
    (fmt_price fmt_pct : ℚ → String) :
    (mk_spike plot_obj ts price pct maj).spike_data
      = { timestamp := ts, price := price, pct_change := pct, is_major := maj } ∧
    ((mk_spike plot_obj ts price pct maj).color = "red" ↔ maj = true) ∧
    ((mk_spike plot_obj ts price pct maj).color = "blue" ↔ maj = false) ∧
    (draw_spike_line plot_obj ts price pct maj).spike_lines.getLast?
      = some (mk_spike plot_obj ts price pct maj) ∧
    on_add_text strftime fmt_price fmt_pct (mk_spike plot_obj ts price pct maj)
      = (if maj then "MAJOR SPIKE" else "MINOR ALERT") ++ "\n" ++
        "Time: " ++ strftime ts ++ "\n" ++
        "Price: " ++ fmt_price price ++ "\n" ++
        "Move: " ++ fmt_pct pct ++ "%" := by
  refine ⟨rfl, ?_, ?_, ?_, rfl⟩
  · cases maj <;> simp [mk_spike]
  · cases maj <;> simp [mk_spike]
  · rw [draw_spike_line_eq, ensure_cursor_spike_lines]
    cases hsl : plot_obj.spike_lines with
    | nil =>
        rw [ring_trim_keep _ (by simp)]
        exact List.getLast?_concat _
    | cons a t =>
        unfold ring_trim
        split
        · show (t ++ [mk_spike plot_obj ts price pct maj]).getLast?
            = some (mk_spike plot_obj ts price pct maj)
          exact List.getLast?_concat _
        · show ((a :: t) ++ [mk_spike plot_obj ts price pct maj]).getLast?
            = some (mk_spike plot_obj ts price pct maj)
          exact List.getLast?_concat _

/-- C6: `get_live_fx` consumes exactly one feed response per call, with
no retry; a raised exception or an empty result yields the empty
dataframe, and on empty data both loops skip the pair: the engine prints
the no-data line, raises no alert, and leaves the plot untouched, and the
dashboard leaves the alert list unchanged. -/
theorem claim_C6_single_fetch_attempt (r : FetchResult) (rest : List FetchResult)
    (plot_obj : PlotObj) (pair : String) (tA tS : ℚ)
    (msgs : List PyVal) (lookback : Nat) :
    (get_live_fx (r :: rest)).2 = rest ∧
    (r.raised = true → (get_live_fx (r :: rest)).1 = []) ∧
    (r = FetchResult.rows [] → (get_live_fx (r :: rest)).1 = []) ∧
    engine_pair_step plot_obj pair [] tA tS
      = (plot_obj, [EngineMsg.no_data pair], 0) ∧
    website_pair_step msgs pair [] lookback = Except.ok msgs := by
  refine ⟨?_, ?_, ?_, rfl, rfl⟩
  · cases r <;> rfl
  · cases r with
    | rows df => intro h; simp [FetchResult.raised] at h
    | exn e => intro _; rfl
  · intro h
    subst h
    rfl

/-- Witness for C6: an exception response followed by a pending one. -/
theorem claim_C6_single_fetch_attempt_witness :
    (get_live_fx (FetchResult.exn "boom" :: [FetchResult.rows [(0, 1)]])).2
        = [FetchResult.rows [(0, 1)]] ∧
    ((FetchResult.exn "boom").raised = true →
      (get_live_fx (FetchResult.exn "boom" :: [FetchResult.rows [(0, 1)]])).1 = []) ∧
    (FetchResult.exn "boom" = FetchResult.rows [] →
      (get_live_fx (FetchResult.exn "boom" :: [FetchResult.rows [(0, 1)]])).1 = []) ∧
    engine_pair_step demo_plot "EURUSD=X" [] (1/100) (3/100)
      = (demo_plot, [EngineMsg.no_data "EURUSD=X"], 0) ∧
    website_pair_step [] "EURUSD=X" [] 5 = Except.ok [] :=
  claim_C6_single_fetch_attempt (FetchResult.exn "boom") [FetchResult.rows [(0, 1)]]
    demo_plot "EURUSD=X" (1/100) (3/100) [] 5

/-- C8: with fewer rows than the lookback the percentage change is 0, so
under any positive alert threshold no alert fires; in the engine loop a
pair with such data (lookback 5 there) raises no alert and draws no spike
marker. -/
theorem claim_C8_insufficient_data (df : DataFrame) (n : Nat) (plot_obj : PlotObj)
    (pair : String) (alert_threshold spike_threshold : ℚ)
    (hshort : df.length < n) (ht : 0 < alert_threshold) :
    calculate_percent_change df n = some 0 ∧
    should_alert 0 alert_threshold = false ∧
    (df.length < 5 →
      (engine_pair_step plot_obj pair df alert_threshold spike_threshold).1.spike_lines
        = plot_obj.spike_lines ∧
      (engine_pair_step plot_obj pair df alert_threshold spike_threshold).2.2 = 0) := by
  have hsa : should_alert 0 alert_threshold = false := by
    simp only [should_alert, abs_zero, decide_eq_false_iff_not, not_le]
    exact ht
  refine ⟨by unfold calculate_percent_change; rw [if_pos hshort], hsa, fun h5 => ?_⟩
  unfold engine_pair_step
  by_cases hemp : df.isEmpty
  · rw [if_pos hemp]
    exact ⟨rfl, rfl⟩
  · rw [if_neg hemp]
    have hc5 : calculate_percent_change df 5 = some 0 := by
      unfold calculate_percent_change
      rw [if_pos h5]
    rw [hc5]
    cases h1 : iloc df.closeCol (-1) with
    | none => simp [update_plot_spike_lines]
    | some price =>
        cases h2 : iloc df.timeIndex (-1) with
        | none => simp [update_plot_spike_lines]
        | some tsv => simp [hsa, update_plot_spike_lines]

/-- Witness for C8 at a two-row dataframe and lookback 5. -/
theorem claim_C8_insufficient_data_witness :
    (([(0, 1), (1, 1)] : DataFrame).length < 5 ∧ (0 : ℚ) < 1/100) ∧
    (calculate_percent_change [(0, 1), (1, 1)] 5 = some 0 ∧
     should_alert 0 (1/100) = false ∧
     (([(0, 1), (1, 1)] : DataFrame).length < 5 →
       (engine_pair_step demo_plot "EURUSD=X" [(0, 1), (1, 1)] (1/100) (3/100)).1.spike_lines
         = demo_plot.spike_lines ∧
       (engine_pair_step demo_plot "EURUSD=X" [(0, 1), (1, 1)] (1/100) (3/100)).2.2 = 0)) :=
  ⟨⟨by norm_num, by norm_num⟩,
   claim_C8_insufficient_data [(0, 1), (1, 1)] 5 demo_plot "EURUSD=X" (1/100) (3/100)
     (by norm_num) (by norm_num)⟩

lemma replicate_set_false (n i : Nat) :
    (List.replicate n false).set i false = List.replicate n false := by
  induction n generalizing i with
  | zero => rfl
  | succ m ih =>
      cases i with
      | zero => rfl
      | succ j => simp [List.replicate_succ, ih j]

lemma count_true_replicate_set (n i : Nat) (h : i < n) :
    ((List.replicate n false).set i true).count true = 1 := by
  induction n generalizing i with
  | zero => omega
  | succ m ih =>
      cases i with
      | zero => simp [List.replicate_succ, List.count_cons, List.count_replicate]
      | succ j => simp [List.replicate_succ, List.count_cons, ih j (by omega)]

lemma navInv_init (n : Nat) (h : 0 < n) : NavInv n (init_dashboard n) :=
  ⟨h, rfl⟩

lemma navInv_on_key (n : Nat) (h : 0 < n) (s : NavState) (key : String)
    (hs : NavInv n s) : NavInv n (on_key n s key) := by
  obtain ⟨hidx, hvis⟩ := hs
  unfold on_key
  by_cases hk : key = "left" ∨ key = "right"
  · rw [if_neg (not_not_intro hk)]
    refine ⟨?_, ?_⟩
    · show (if key = "right" then (s.current_index + 1) % n
        else (((s.current_index : Int) - 1) % (n : Int)).toNat) < n
      split_ifs with hr
      · exact Nat.mod_lt _ h
      · have hn : (0 : Int) < (n : Int) := by exact_mod_cast h
        have hnn := Int.emod_nonneg ((s.current_index : Int) - 1) (ne_of_gt hn)
        have hlt := Int.emod_lt_of_pos ((s.current_index : Int) - 1) hn
        exact (Int.toNat_lt hnn).mpr hlt
    · show (s.visible.set s.current_index false).set _ true
        = (List.replicate n false).set _ true
      rw [hvis, List.set_set, replicate_set_false]
  · rw [if_pos hk]
    exact ⟨hidx, hvis⟩

lemma navInv_foldl (n : Nat) (h : 0 < n) (keys : List String) (s : NavState)
    (hs : NavInv n s) : NavInv n (keys.foldl (on_key n) s) := by
  induction keys generalizing s with
  | nil => exact hs
  | cons k ks ih => exact ih _ (navInv_on_key n h s k hs)

/-- C9: after initialisation and any sequence of key events, the current
index stays in range (wrapping modulo the number of pairs), the
visibility vector is exactly one `true` at the current index, and hence
exactly one axes is visible. -/
theorem claim_C9_navigation_invariant (n : Nat) (keys : List String) (h : 0 < n) :
    (keys.foldl (on_key n) (init_dashboard n)).current_index < n ∧
    (keys.foldl (on_key n) (init_dashboard n)).visible
      = (List.replicate n false).set
          (keys.foldl (on_key n) (init_dashboard n)).current_index true ∧
    (keys.foldl (on_key n) (init_dashboard n)).visible.count true = 1 := by
  obtain ⟨h1, h2⟩ := navInv_foldl n h keys _ (navInv_init n h)
  exact ⟨h1, h2, by rw [h2]; exact count_true_replicate_set n _ h1⟩

/-- Witness for C9 with three pairs and a key sequence holding an ignored
key and both arrows. -/
theorem claim_C9_navigation_invariant_witness :
    0 < 3 ∧
    ((["left", "up", "right", "right"].foldl (on_key 3) (init_dashboard 3)).current_index < 3 ∧
     (["left", "up", "right", "right"].foldl (on_key 3) (init_dashboard 3)).visible
       = (List.replicate 3 false).set
           (["left", "up", "right", "right"].foldl (on_key 3) (init_dashboard 3)).current_index true ∧
     (["left", "up", "right", "right"].foldl (on_key 3) (init_dashboard 3)).visible.count true = 1) :=
  ⟨by decide, claim_C9_navigation_invariant 3 ["left", "up", "right", "right"] (by decide)⟩

end OpenFX
